import Mathlib

/-!
Verification of the terminology tools server (`src/tx-tools/src/server.ts`).

The file shallowly embeds the two MCP tool handlers, `lookup-code` and
`validate-code`, as total Lean functions over explicit models of their
inputs and of the outcome of the single outbound HTTP call each handler
performs.  Library behaviour that the handlers rely on is modelled
faithfully:

* `node-fetch`: a response is `ok` exactly when its status is in 200..299;
  `fetch` itself, `response.text()` and `response.json()` may each throw,
  which is modelled with `Except String`, the error carrying the message
  string that the handler's `catch` block would compute
  (`error instanceof Error ? error.message : String(error)`).
* `JSON.stringify(value, null, 2)` is modelled by `stringify2` below.
* The `as ValueSet` / `as Parameters` casts in the source assert the
  fhir/r4 shapes, which are embedded as `ValueSet` and `Parameters`
  structures (the source field `valueBoolean` is embedded as `valueBool`).
* `zod`'s `z.string()` accepts any string (including the empty string) and
  rejects a missing field or a non-string value; this is `zString` below.
-/

/-- A JSON value, as produced by parsing a response body.  Numbers are
modelled as integers; none of the verified properties depend on number
serialization. -/
inductive Json where
  | null : Json
  | bool : Bool → Json
  | num : Int → Json
  | str : String → Json
  | arr : List Json → Json
  | obj : List (String × Json) → Json

/-- JSON string escaping for one character, as in `JSON.stringify`
(common escapes; exotic control characters do not occur in the verified
properties). -/
def jsonEscapeChar (c : Char) : String :=
  if c = '"' then "\\\""
  else if c = '\\' then "\\\\"
  else if c = '\n' then "\\n"
  else if c = '\t' then "\\t"
  else if c = '\r' then "\\r"
  else String.singleton c

/-- A JSON string literal: quotes around the escaped characters. -/
def jsonQuote (s : String) : String :=
  "\"" ++ String.join (s.toList.map jsonEscapeChar) ++ "\""

/-- Indentation produced by `JSON.stringify(_, null, 2)` at nesting depth
`n`: `2 * n` spaces. -/
def indentOf (n : Nat) : String :=
  String.join (List.replicate n "  ")

mutual

/-- `JSON.stringify(v, null, 2)` at nesting depth `d`. -/
def stringifyAt : Nat → Json → String
  | _, Json.null => "null"
  | _, Json.bool b => if b then "true" else "false"
  | _, Json.num n => toString n
  | _, Json.str s => jsonQuote s
  | _, Json.arr [] => "[]"
  | d, Json.arr (x :: xs) =>
      "[\n" ++ String.intercalate ",\n" (stringifyElems (d + 1) (x :: xs))
        ++ "\n" ++ indentOf d ++ "]"
  | _, Json.obj [] => "\x7b\x7d"
  | d, Json.obj (f :: fs) =>
      "\x7b\n" ++ String.intercalate ",\n" (stringifyFields (d + 1) (f :: fs))
        ++ "\n" ++ indentOf d ++ "\x7d"

/-- Array elements rendered at depth `d`, each on its own indented line. -/
def stringifyElems : Nat → List Json → List String
  | _, [] => []
  | d, x :: xs => (indentOf d ++ stringifyAt d x) :: stringifyElems d xs

/-- Object members rendered at depth `d`: `"key": value` lines. -/
def stringifyFields : Nat → List (String × Json) → List String
  | _, [] => []
  | d, (k, v) :: fs =>
      (indentOf d ++ jsonQuote k ++ ": " ++ stringifyAt d v) :: stringifyFields d fs

end

/-- `JSON.stringify(v, null, 2)`. -/
def stringify2 (v : Json) : String :=
  stringifyAt 0 v

/-- The expansion object of a fhir/r4 `ValueSet`: the source only reads
its optional `contains` list, whose elements are passed through verbatim
(hence `Json`). -/
structure ValueSetExpansion where
  contains : Option (List Json)

/-- A fhir/r4 `ValueSet` as read by the lookup handler: only the optional
`expansion` is accessed (`result.expansion?.contains`). -/
structure ValueSet where
  expansion : Option ValueSetExpansion

/-- One entry of a fhir/r4 `Parameters.parameter` list, restricted to the
fields the validate handler reads.  `valueBool` embeds the source field
`valueBoolean`. -/
structure ParametersParameter where
  name : String
  valueBool : Option Bool
  valueCode : Option String
  valueUri : Option String
  valueString : Option String
deriving DecidableEq

/-- A fhir/r4 `Parameters` resource: an optional flat list of named
parameters. -/
structure Parameters where
  parameter : Option (List ParametersParameter)
deriving DecidableEq

/-- One entry of a Tool Response `content` array: `{ type, text }`. -/
structure ContentItem where
  type : String
  text : String
deriving DecidableEq

/-- The Tool Response envelope `{ content, isError }` returned by both
handlers; `isError = none` models an absent `isError` property. -/
structure ToolResponse where
  content : List ContentItem
  isError : Option Bool
deriving DecidableEq

/-- The parsed input of the `lookup-code` tool. -/
structure LookupInput where
  filter : String
  url : String
deriving DecidableEq

/-- The parsed input of the `validate-code` tool; `version` is the
optional field (`none` models an absent property). -/
structure ValidateInput where
  system : String
  code : String
  url : String
  version : Option String
deriving DecidableEq

/-- The outcome of one HTTP exchange as the handler observes it.
`status` is the response status; `textBody` is what `await
response.text()` yields (`Except.error m` when it throws with message
`m`), and `jsonBody` likewise for `await response.json()`, already cast
to the shape `β` that the source asserts. -/
structure HttpResponse (β : Type) where
  status : Nat
  textBody : Except String String
  jsonBody : Except String β

/-- `response.ok` as defined by node-fetch: status in the range
200..299. -/
def HttpResponse.ok {β : Type} (r : HttpResponse β) : Bool :=
  decide (200 ≤ r.status) && decide (r.status ≤ 299)

/-- The outcome of `await fetch(...)`: either the promise rejects with an
exception whose message is `m` (`Except.error m`), or a response
arrives. -/
abbrev FetchOutcome (β : Type) := Except String (HttpResponse β)

/-- The `catch` block of the lookup handler: `isError: true` with text
`Error looking up codes: ` followed by the exception's message. -/
def lookupCatch (m : String) : ToolResponse :=
  ⟨[⟨"text", "Error looking up codes: " ++ m⟩], some true⟩

/-- The `lookup-code` handler body after the outbound call, embedding
lines 62..108 of `server.ts`.  The handler's input (`filter`, `url`) only
feeds the outbound URL, so the response mapping depends on the fetch
outcome alone. -/
def lookupHandler (fr : FetchOutcome ValueSet) : ToolResponse :=
  match fr with
  | Except.error m => lookupCatch m
  | Except.ok resp =>
    if !resp.ok then
      match resp.textBody with
      | Except.error m => lookupCatch m
      | Except.ok errorText =>
          ⟨[⟨"text", "Terminology server error (" ++ toString resp.status ++ "): "
              ++ errorText⟩], some true⟩
    else
      match resp.jsonBody with
      | Except.error m => lookupCatch m
      | Except.ok result =>
        match result.expansion.bind ValueSetExpansion.contains with
        | none => ⟨[⟨"text", "No matching codes found"⟩], none⟩
        | some [] => ⟨[⟨"text", "No matching codes found"⟩], none⟩
        | some (firstMatch :: _) => ⟨[⟨"text", stringify2 firstMatch⟩], none⟩

/-- `result.parameter?.find((p) => p.name === nm)`: the first parameter
with the given name, if the list exists and holds one. -/
def findParam (ps : Option (List ParametersParameter)) (nm : String) :
    Option ParametersParameter :=
  ps.bind (List.find? (fun p => p.name == nm))

/-- The normalized record the validate handler builds before
serializing. -/
structure ValidationResult where
  valid : Bool
  code : String
  system : String
  version : Option String
  display : Option String
deriving DecidableEq

/-- The `validationResult` object literal as `JSON.stringify` sees it:
insertion order `valid, code, system, version, display`, with
`undefined`-valued properties omitted. -/
def ValidationResult.toJson (v : ValidationResult) : Json :=
  Json.obj ([("valid", Json.bool v.valid), ("code", Json.str v.code),
      ("system", Json.str v.system)]
    ++ (match v.version with | some s => [("version", Json.str s)] | none => [])
    ++ (match v.display with | some s => [("display", Json.str s)] | none => []))

/-- Lines 177..189 of `server.ts`: project the `Parameters` response onto
the normalized record, falling back to the request's own `code` and
`system` inputs.  `x?.field ?? d` is `(x.bind field).getD d`. -/
def extractValidation (system code : String) (result : Parameters) :
    ValidationResult :=
  let resultParam := findParam result.parameter "result"
  let displayParam := findParam result.parameter "display"
  let codeParam := findParam result.parameter "code"
  let systemParam := findParam result.parameter "system"
  let versionParam := findParam result.parameter "version"
  ⟨(resultParam.bind ParametersParameter.valueBool).getD false,
   (codeParam.bind ParametersParameter.valueCode).getD code,
   (systemParam.bind ParametersParameter.valueUri).getD system,
   versionParam.bind ParametersParameter.valueString,
   displayParam.bind ParametersParameter.valueString⟩

/-- The `catch` block of the validate handler. -/
def validateCatch (m : String) : ToolResponse :=
  ⟨[⟨"text", "Error validating code: " ++ m⟩], some true⟩

/-- The `validate-code` handler body after the outbound call, embedding
lines 153..206 of `server.ts`. -/
def validateHandler (input : ValidateInput) (fr : FetchOutcome Parameters) :
    ToolResponse :=
  match fr with
  | Except.error m => validateCatch m
  | Except.ok resp =>
    if !resp.ok then
      match resp.textBody with
      | Except.error m => validateCatch m
      | Except.ok errorText =>
          ⟨[⟨"text", "Terminology server error (" ++ toString resp.status ++ "): "
              ++ errorText⟩], some true⟩
    else
      match resp.jsonBody with
      | Except.error m => validateCatch m
      | Except.ok result =>
          ⟨[⟨"text",
              stringify2 (extractValidation input.system input.code result).toJson⟩],
            none⟩

/-- An outbound GET request: the URL path part and the query parameters
in the order `searchParams.set` adds them (all keys here are distinct, so
`set` only appends). -/
structure OutboundRequest where
  path : String
  query : List (String × String)
deriving DecidableEq

/-- Lines 58..60 of `server.ts`: the `$expand` request of the lookup
handler. -/
def buildLookupRequest (serverBase : String) (input : LookupInput) :
    OutboundRequest :=
  ⟨serverBase ++ "/ValueSet/$expand",
   [("url", input.url), ("filter", input.filter)]⟩

/-- Lines 145..151 of `server.ts`: the `$validate-code` request of the
validate handler.  `if (version)` is JavaScript truthiness: the parameter
is appended only when `version` is present and non-empty. -/
def buildValidateRequest (serverBase : String) (input : ValidateInput) :
    OutboundRequest :=
  ⟨serverBase ++ "/ValueSet/$validate-code",
   [("url", input.url), ("system", input.system), ("code", input.code)]
   ++ (match input.version with
       | some v => if v == "" then [] else [("version", v)]
       | none => [])⟩

/-- A raw invocation-argument value before schema validation, as far as
`z.string()` can distinguish: a string, or any non-string value. -/
inductive RawValue where
  | str : String → RawValue
  | nonString : RawValue
deriving DecidableEq

/-- `z.string().parse`: succeeds on any string (the empty string
included), fails on a missing field or non-string value. -/
def zString : Option RawValue → Option String
  | some (RawValue.str s) => some s
  | _ => none

/-- The raw argument object of a `lookup-code` invocation (`none` models
an absent property). -/
structure RawLookupArgs where
  filter : Option RawValue
  url : Option RawValue
deriving DecidableEq

/-- Lines 43..53 of `server.ts`: the declared input schema of
`lookup-code` — an object with `filter: z.string()` and
`url: z.string()` — applied by the registry before the handler runs. -/
def parseLookupArgs (raw : RawLookupArgs) : Option LookupInput :=
  match zString raw.filter, zString raw.url with
  | some f, some u => some ⟨f, u⟩
  | _, _ => none

/-- C3: whenever the remote call of `lookup-code` succeeds (2xx, body
parsed) and the expansion's match list is non-empty, the result text is
the pretty-printed JSON of the FIRST element only — `rest` is arbitrary —
and the response carries no `isError` flag. -/
theorem claim3_lookup_first_match (resp : HttpResponse ValueSet)
    (result : ValueSet) (firstMatch : Json) (rest : List Json)
    (hok : resp.ok = true) (hjson : resp.jsonBody = Except.ok result)
    (hc : result.expansion.bind ValueSetExpansion.contains
      = some (firstMatch :: rest)) :
    lookupHandler (Except.ok resp)
      = ⟨[⟨"text", stringify2 firstMatch⟩], none⟩ := by
  simp [lookupHandler, hok, hjson, hc]

/-- Witness for C3 at a concrete two-element expansion: only the first
coding is serialized. -/
theorem claim3_lookup_first_match_witness :
    lookupHandler (Except.ok ⟨200, Except.ok "",
        Except.ok ⟨some ⟨some [Json.obj [("code", Json.str "12345"),
          ("display", Json.str "Test Code")], Json.obj [("code", Json.str "99")]]⟩⟩⟩)
      = ⟨[⟨"text", "\x7b\n  \"code\": \"12345\",\n  \"display\": \"Test Code\"\n\x7d"⟩],
        none⟩ := by
  have h := claim3_lookup_first_match
    ⟨200, Except.ok "", Except.ok ⟨some ⟨some [Json.obj [("code", Json.str "12345"),
      ("display", Json.str "Test Code")], Json.obj [("code", Json.str "99")]]⟩⟩⟩
    ⟨some ⟨some [Json.obj [("code", Json.str "12345"), ("display", Json.str "Test Code")],
      Json.obj [("code", Json.str "99")]]⟩⟩
    (Json.obj [("code", Json.str "12345"), ("display", Json.str "Test Code")])
    [Json.obj [("code", Json.str "99")]] (by decide) rfl rfl
  rw [h]
  rfl

/-- C4: whenever the remote call of `lookup-code` succeeds but the match
list is absent (`none`, covering a missing `expansion` or a missing
`contains`) or empty, the result text is exactly `No matching codes
found` and `isError` is absent. -/
theorem claim4_lookup_no_matches (resp : HttpResponse ValueSet)
    (result : ValueSet)
    (hok : resp.ok = true) (hjson : resp.jsonBody = Except.ok result)
    (hc : result.expansion.bind ValueSetExpansion.contains = none
      ∨ result.expansion.bind ValueSetExpansion.contains = some []) :
    lookupHandler (Except.ok resp)
      = ⟨[⟨"text", "No matching codes found"⟩], none⟩ := by
  cases hc with
  | inl h => simp [lookupHandler, hok, hjson, h]
  | inr h => simp [lookupHandler, hok, hjson, h]

/-- Witness for C4 at the spec's scenario: the remote returns
`expansion.contains = []`. -/
theorem claim4_lookup_no_matches_witness :
    lookupHandler (Except.ok ⟨200, Except.ok "", Except.ok ⟨some ⟨some []⟩⟩⟩)
      = ⟨[⟨"text", "No matching codes found"⟩], none⟩ :=
  claim4_lookup_no_matches ⟨200, Except.ok "", Except.ok ⟨some ⟨some []⟩⟩⟩
    ⟨some ⟨some []⟩⟩ (by decide) rfl (Or.inr rfl)

/-- C5: for both tools, a non-2xx status whose body reads as `body`
yields `isError: true` with text exactly
`Terminology server error (status): body`. -/
theorem claim5_non2xx_terminology_error (respL : HttpResponse ValueSet)
    (input : ValidateInput) (respV : HttpResponse Parameters)
    (bodyL bodyV : String)
    (h2L : ¬(200 ≤ respL.status ∧ respL.status ≤ 299))
    (htL : respL.textBody = Except.ok bodyL)
    (h2V : ¬(200 ≤ respV.status ∧ respV.status ≤ 299))
    (htV : respV.textBody = Except.ok bodyV) :
    lookupHandler (Except.ok respL)
      = ⟨[⟨"text", "Terminology server error (" ++ toString respL.status ++ "): "
          ++ bodyL⟩], some true⟩
    ∧ validateHandler input (Except.ok respV)
      = ⟨[⟨"text", "Terminology server error (" ++ toString respV.status ++ "): "
          ++ bodyV⟩], some true⟩ := by
  constructor
  · have hok : respL.ok = false := by
      simp only [HttpResponse.ok, Bool.and_eq_false_iff, decide_eq_false_iff_not]
      omega
    simp [lookupHandler, hok, htL]
  · have hok : respV.ok = false := by
      simp only [HttpResponse.ok, Bool.and_eq_false_iff, decide_eq_false_iff_not]
      omega
    simp [validateHandler, hok, htV]

/-- Witness for C5: a 404 on validate and a 500 on lookup. -/
theorem claim5_non2xx_terminology_error_witness :
    lookupHandler (Except.ok ⟨500, Except.ok "Server Error", Except.ok ⟨none⟩⟩)
      = ⟨[⟨"text", "Terminology server error (500): Server Error"⟩], some true⟩
    ∧ validateHandler ⟨"http://snomed.info/sct", "12345", "http://invalid-valueset-url", none⟩
        (Except.ok ⟨404, Except.ok "ValueSet not found", Except.ok ⟨none⟩⟩)
      = ⟨[⟨"text", "Terminology server error (404): ValueSet not found"⟩], some true⟩ :=
  claim5_non2xx_terminology_error
    ⟨500, Except.ok "Server Error", Except.ok ⟨none⟩⟩
    ⟨"http://snomed.info/sct", "12345", "http://invalid-valueset-url", none⟩
    ⟨404, Except.ok "ValueSet not found", Except.ok ⟨none⟩⟩
    "Server Error" "ValueSet not found"
    (by decide) rfl (by decide) rfl

/-- C6: every throw point inside either handler (the `fetch` itself; the
body reads `response.text()` and `response.json()`) is caught and mapped
to `isError: true` with text `Error looking up codes: message` for
`lookup-code`, resp. `Error validating code: message` for
`validate-code`.  No exception escapes the handler: both embeddings are
total functions into `ToolResponse`. -/
theorem claim6_exception_envelope (mF mT mJ nF nT nJ : String)
    (respT : HttpResponse ValueSet) (respJ : HttpResponse ValueSet)
    (input : ValidateInput)
    (respVT : HttpResponse Parameters) (respVJ : HttpResponse Parameters) :
    (lookupHandler (Except.error mF)
      = ⟨[⟨"text", "Error looking up codes: " ++ mF⟩], some true⟩)
    ∧ (respT.ok = false → respT.textBody = Except.error mT →
      lookupHandler (Except.ok respT)
        = ⟨[⟨"text", "Error looking up codes: " ++ mT⟩], some true⟩)
    ∧ (respJ.ok = true → respJ.jsonBody = Except.error mJ →
      lookupHandler (Except.ok respJ)
        = ⟨[⟨"text", "Error looking up codes: " ++ mJ⟩], some true⟩)
    ∧ (validateHandler input (Except.error nF)
      = ⟨[⟨"text", "Error validating code: " ++ nF⟩], some true⟩)
    ∧ (respVT.ok = false → respVT.textBody = Except.error nT →
      validateHandler input (Except.ok respVT)
        = ⟨[⟨"text", "Error validating code: " ++ nT⟩], some true⟩)
    ∧ (respVJ.ok = true → respVJ.jsonBody = Except.error nJ →
      validateHandler input (Except.ok respVJ)
        = ⟨[⟨"text", "Error validating code: " ++ nJ⟩], some true⟩) := by
  refine ⟨rfl, ?_, ?_, rfl, ?_, ?_⟩
  · intro hok ht
    simp [lookupHandler, lookupCatch, hok, ht]
  · intro hok hj
    simp [lookupHandler, lookupCatch, hok, hj]
  · intro hok ht
    simp [validateHandler, validateCatch, hok, ht]
  · intro hok hj
    simp [validateHandler, validateCatch, hok, hj]

/-- Witness for C6: a rejected fetch and a failing JSON parse both land
in the error envelope. -/
theorem claim6_exception_envelope_witness :
    lookupHandler (Except.error "network down")
      = ⟨[⟨"text", "Error looking up codes: network down"⟩], some true⟩
    ∧ validateHandler ⟨"http://loinc.org", "72133-2", "http://loinc.org/vs", none⟩
        (Except.ok ⟨200, Except.ok "", Except.error "Unexpected token"⟩)
      = ⟨[⟨"text", "Error validating code: Unexpected token"⟩], some true⟩ := by
  have h := claim6_exception_envelope "network down" "" "" "" ""
    "Unexpected token" ⟨200, Except.ok "", Except.ok ⟨none⟩⟩
    ⟨200, Except.ok "", Except.ok ⟨none⟩⟩
    ⟨"http://loinc.org", "72133-2", "http://loinc.org/vs", none⟩
    ⟨200, Except.ok "", Except.ok ⟨none⟩⟩
    ⟨200, Except.ok "", Except.error "Unexpected token"⟩
  exact ⟨h.1, h.2.2.2.2.2 (by decide) rfl⟩



/-- C1: for either tool, the response carries `isError` (always set to
`true`) exactly when the fetch rejected, the status was non-success
(`response.ok` false), or the body parse threw; in every other case —
including a successful lookup whose match list is empty — `isError` is
absent. -/
theorem claim1_isError_iff_remote_failure (frl : FetchOutcome ValueSet)
    (input : ValidateInput) (frv : FetchOutcome Parameters) :
    ((lookupHandler frl).isError = some true ↔
      (∃ m, frl = Except.error m) ∨
        ∃ resp, frl = Except.ok resp ∧
          (resp.ok = false ∨ ∃ m, resp.jsonBody = Except.error m))
    ∧ ((validateHandler input frv).isError = some true ↔
      (∃ m, frv = Except.error m) ∨
        ∃ resp, frv = Except.ok resp ∧
          (resp.ok = false ∨ ∃ m, resp.jsonBody = Except.error m)) := by
  constructor
  · cases frl with
    | error m => simp [lookupHandler, lookupCatch]
    | ok resp =>
      cases hok : resp.ok with
      | false =>
        cases ht : resp.textBody with
        | error m => simp [lookupHandler, lookupCatch, hok, ht]
        | ok body => simp [lookupHandler, hok, ht]
      | true =>
        cases hj : resp.jsonBody with
        | error m => simp [lookupHandler, lookupCatch, hok, hj]
        | ok result =>
          cases hc : result.expansion.bind ValueSetExpansion.contains with
          | none => simp [lookupHandler, hok, hj, hc]
          | some l =>
            cases l with
            | nil => simp [lookupHandler, hok, hj, hc]
            | cons x xs => simp [lookupHandler, hok, hj, hc]
  · cases frv with
    | error m => simp [validateHandler, validateCatch]
    | ok resp =>
      cases hok : resp.ok with
      | false =>
        cases ht : resp.textBody with
        | error m => simp [validateHandler, validateCatch, hok, ht]
        | ok body => simp [validateHandler, hok, ht]
      | true =>
        cases hj : resp.jsonBody with
        | error m => simp [validateHandler, validateCatch, hok, hj]
        | ok result => simp [validateHandler, hok, hj]

/-- C2: on a 2xx validate response whose body parses as `result`, the
output is the non-error pretty-printed serialization of the record whose
fields are extracted by name from the parameter list — `valid` from
`result` defaulting to `false`, `code`/`system` defaulting to the
request's own inputs, `display` optional — and whose `version` component
is computed from the response alone (its expression does not mention
`input.version`); the final conjunct checks explicitly that replacing the
input's version by `none` leaves the output unchanged. -/
theorem claim2_validation_extraction (input : ValidateInput)
    (resp : HttpResponse Parameters) (result : Parameters)
    (hok : resp.ok = true) (hjson : resp.jsonBody = Except.ok result) :
    validateHandler input (Except.ok resp)
      = ⟨[⟨"text", stringify2 (ValidationResult.mk
          (((findParam result.parameter "result").bind
              ParametersParameter.valueBool).getD false)
          (((findParam result.parameter "code").bind
              ParametersParameter.valueCode).getD input.code)
          (((findParam result.parameter "system").bind
              ParametersParameter.valueUri).getD input.system)
          ((findParam result.parameter "version").bind
              ParametersParameter.valueString)
          ((findParam result.parameter "display").bind
              ParametersParameter.valueString)).toJson⟩], none⟩
    ∧ validateHandler ⟨input.system, input.code, input.url, none⟩ (Except.ok resp)
      = validateHandler input (Except.ok resp) := by
  constructor
  · simp [validateHandler, hok, hjson, extractValidation]
  · simp [validateHandler, hok, hjson, extractValidation]

/-- Witness for C2 at the spec's scenario: all five parameters present. -/
theorem claim2_validation_extraction_witness :
    validateHandler
        ⟨"http://snomed.info/sct", "30371007", "http://snomed.info/sct?fhir_vs",
          some "http://snomed.info/sct/32506021000036107/version/20250831"⟩
        (Except.ok ⟨200, Except.ok "",
          Except.ok ⟨some [⟨"result", some true, none, none, none⟩,
            ⟨"code", none, some "30371007", none, none⟩,
            ⟨"system", none, none, some "http://snomed.info/sct", none⟩,
            ⟨"display", none, none, none, some "Open fracture"⟩]⟩⟩)
      = ⟨[⟨"text", "\x7b\n  \"valid\": true,\n  \"code\": \"30371007\",\n  \"system\": \"http://snomed.info/sct\",\n  \"display\": \"Open fracture\"\n\x7d"⟩],
        none⟩ := by
  have h := claim2_validation_extraction
    ⟨"http://snomed.info/sct", "30371007", "http://snomed.info/sct?fhir_vs",
      some "http://snomed.info/sct/32506021000036107/version/20250831"⟩
    ⟨200, Except.ok "",
      Except.ok ⟨some [⟨"result", some true, none, none, none⟩,
        ⟨"code", none, some "30371007", none, none⟩,
        ⟨"system", none, none, some "http://snomed.info/sct", none⟩,
        ⟨"display", none, none, none, some "Open fracture"⟩]⟩⟩
    ⟨some [⟨"result", some true, none, none, none⟩,
      ⟨"code", none, some "30371007", none, none⟩,
      ⟨"system", none, none, some "http://snomed.info/sct", none⟩,
      ⟨"display", none, none, none, some "Open fracture"⟩]⟩
    (by decide) rfl
  rw [h.1]
  rfl

/-- C9: in every case — fetch rejection, non-2xx, parse failure, success
with or without matches — each handler's `content` is a one-element list
whose single entry has `type = "text"` and a string `text`. -/
theorem claim9_content_singleton (frl : FetchOutcome ValueSet)
    (input : ValidateInput) (frv : FetchOutcome Parameters) :
    (∃ t, (lookupHandler frl).content = [⟨"text", t⟩])
    ∧ (∃ t, (validateHandler input frv).content = [⟨"text", t⟩]) := by
  constructor
  · cases frl with
    | error m => exact ⟨"Error looking up codes: " ++ m, rfl⟩
    | ok resp =>
      cases hok : resp.ok with
      | false =>
        cases ht : resp.textBody with
        | error m => simp [lookupHandler, lookupCatch, hok, ht]
        | ok body => simp [lookupHandler, hok, ht]
      | true =>
        cases hj : resp.jsonBody with
        | error m => simp [lookupHandler, lookupCatch, hok, hj]
        | ok result =>
          cases hc : result.expansion.bind ValueSetExpansion.contains with
          | none => simp [lookupHandler, hok, hj, hc]
          | some l =>
            cases l with
            | nil => simp [lookupHandler, hok, hj, hc]
            | cons x xs => simp [lookupHandler, hok, hj, hc]
  · cases frv with
    | error m => exact ⟨"Error validating code: " ++ m, rfl⟩
    | ok resp =>
      cases hok : resp.ok with
      | false =>
        cases ht : resp.textBody with
        | error m => simp [validateHandler, validateCatch, hok, ht]
        | ok body => simp [validateHandler, hok, ht]
      | true =>
        cases hj : resp.jsonBody with
        | error m => simp [validateHandler, validateCatch, hok, hj]
        | ok result => simp [validateHandler, hok, hj]

/-- C7: the outbound `$validate-code` request always carries `url`,
`system` and `code`; when the input's `version` is absent no `version`
parameter appears; a `version` parameter can only appear when the input
provided one; and a `version` parameter with an empty value is never
sent. -/
theorem claim7_validate_query_params (base : String) (input : ValidateInput) :
    (("url", input.url) ∈ (buildValidateRequest base input).query
      ∧ ("system", input.system) ∈ (buildValidateRequest base input).query
      ∧ ("code", input.code) ∈ (buildValidateRequest base input).query)
    ∧ (input.version = none →
      ∀ v, ("version", v) ∉ (buildValidateRequest base input).query)
    ∧ (∀ v, ("version", v) ∈ (buildValidateRequest base input).query →
      ∃ w, input.version = some w)
    ∧ ("version", "") ∉ (buildValidateRequest base input).query := by
  refine ⟨⟨?_, ?_, ?_⟩, ?_, ?_, ?_⟩
  · simp [buildValidateRequest]
  · simp [buildValidateRequest]
  · simp [buildValidateRequest]
  · intro hv v
    simp [buildValidateRequest, hv]
  · intro v hv
    cases hver : input.version with
    | none => simp [buildValidateRequest, hver] at hv
    | some w => exact ⟨w, rfl⟩
  · cases hver : input.version with
    | none => simp [buildValidateRequest, hver]
    | some w =>
      by_cases hw : w = ""
      · simp [buildValidateRequest, hver, hw]
      · have hbeq : (w == "") = false := by simpa using hw
        simp [buildValidateRequest, hver, hbeq]
        exact fun h => hw h.symm

/-- Witness for C7 at a version-less input: the three mandatory
parameters are present and no `version` parameter is sent. -/
theorem claim7_validate_query_params_witness :
    ("url", "http://snomed.info/sct?fhir_vs")
        ∈ (buildValidateRequest "https://tx.ontoserver.csiro.au/fhir"
          ⟨"http://snomed.info/sct", "30371007", "http://snomed.info/sct?fhir_vs",
            none⟩).query
    ∧ ("version", "20250831")
        ∉ (buildValidateRequest "https://tx.ontoserver.csiro.au/fhir"
          ⟨"http://snomed.info/sct", "30371007", "http://snomed.info/sct?fhir_vs",
            none⟩).query :=
  ⟨(claim7_validate_query_params "https://tx.ontoserver.csiro.au/fhir"
      ⟨"http://snomed.info/sct", "30371007", "http://snomed.info/sct?fhir_vs",
        none⟩).1.1,
   (claim7_validate_query_params "https://tx.ontoserver.csiro.au/fhir"
      ⟨"http://snomed.info/sct", "30371007", "http://snomed.info/sct?fhir_vs",
        none⟩).2.1 rfl "20250831"⟩

/-- C8, counterexample: the declared schema is `z.string()` for both
fields, which accepts the empty string, so an invocation with an empty
`filter` is NOT rejected — it parses successfully and reaches the
handler, contradicting the claim that empty strings are rejected by the
schema. -/
theorem claim8_counterexample :
    parseLookupArgs ⟨some (RawValue.str ""),
        some (RawValue.str "http://snomed.info/sct?fhir_vs")⟩
      = some ⟨"", "http://snomed.info/sct?fhir_vs"⟩ := by decide

/-- C8, amended: both fields are required strings — parsing succeeds
exactly when each field is present and is a string (the empty string
included); on success the parsed input carries the two raw strings
verbatim. -/
theorem claim8_required_string_fields (raw : RawLookupArgs) :
    ((parseLookupArgs raw).isSome = true ↔
      (∃ f, raw.filter = some (RawValue.str f))
        ∧ ∃ u, raw.url = some (RawValue.str u))
    ∧ ∀ i, parseLookupArgs raw = some i →
      raw.filter = some (RawValue.str i.filter)
        ∧ raw.url = some (RawValue.str i.url) := by
  constructor
  · cases hf : raw.filter with
    | none => simp [parseLookupArgs, zString, hf]
    | some vf =>
      cases vf with
      | nonString => simp [parseLookupArgs, zString, hf]
      | str f =>
        cases hu : raw.url with
        | none => simp [parseLookupArgs, zString, hf, hu]
        | some vu =>
          cases vu with
          | nonString => simp [parseLookupArgs, zString, hf, hu]
          | str u => simp [parseLookupArgs, zString, hf, hu]
  · intro i hi
    cases hf : raw.filter with
    | none => simp [parseLookupArgs, zString, hf] at hi
    | some vf =>
      cases vf with
      | nonString => simp [parseLookupArgs, zString, hf] at hi
      | str f =>
        cases hu : raw.url with
        | none => simp [parseLookupArgs, zString, hf, hu] at hi
        | some vu =>
          cases vu with
          | nonString => simp [parseLookupArgs, zString, hf, hu] at hi
          | str u =>
            simp [parseLookupArgs, zString, hf, hu] at hi
            subst hi
            exact ⟨rfl, rfl⟩

/-- Witness for C8 (amended): a missing `url` field is rejected; a
two-string invocation parses to those strings. -/
theorem claim8_required_string_fields_witness :
    (parseLookupArgs ⟨some (RawValue.str "hypertension"), none⟩).isSome = false
    ∧ parseLookupArgs ⟨some (RawValue.str "hypertension"),
        some (RawValue.str "http://snomed.info/sct?fhir_vs")⟩
      = some ⟨"hypertension", "http://snomed.info/sct?fhir_vs"⟩ := by
  constructor
  · have h := (claim8_required_string_fields
      ⟨some (RawValue.str "hypertension"), none⟩).1
    cases hs : (parseLookupArgs ⟨some (RawValue.str "hypertension"), none⟩).isSome with
    | false => rfl
    | true =>
      rcases (h.mp hs).2 with ⟨u, hu⟩
      exact Option.noConfusion hu
  · decide

/-- C10: on the success path of `validate-code`, (i) the fallback of the
output `code`/`system` to the request's inputs also fires when a
parameter of that name IS present but carries no `valueCode`/`valueUri`
(provided every parameter of that name lacks it), and (ii) duplicate
parameter names are resolved to the FIRST list entry. -/
theorem claim10_fallback_and_first_wins (input : ValidateInput)
    (ps rest : List ParametersParameter) (p : ParametersParameter) :
    ((∀ q ∈ ps, q.name = "code" → q.valueCode = none) → p ∈ ps →
      p.name = "code" →
      (extractValidation input.system input.code ⟨some ps⟩).code = input.code)
    ∧ ((∀ q ∈ ps, q.name = "system" → q.valueUri = none) → p ∈ ps →
      p.name = "system" →
      (extractValidation input.system input.code ⟨some ps⟩).system = input.system)
    ∧ (p.name = "code" →
      (extractValidation input.system input.code ⟨some (p :: rest)⟩).code
        = p.valueCode.getD input.code)
    ∧ (p.name = "system" →
      (extractValidation input.system input.code ⟨some (p :: rest)⟩).system
        = p.valueUri.getD input.system) := by
  refine ⟨?_, ?_, ?_, ?_⟩
  · intro hall hmem hname
    cases hfind : List.find? (fun q => q.name == "code") ps with
    | none => simp [extractValidation, findParam, hfind]
    | some q =>
      have hq := List.find?_some hfind
      have hqmem := List.mem_of_find?_eq_some hfind
      have : q.valueCode = none := hall q hqmem (by simpa using hq)
      simp [extractValidation, findParam, hfind, this]
  · intro hall hmem hname
    cases hfind : List.find? (fun q => q.name == "system") ps with
    | none => simp [extractValidation, findParam, hfind]
    | some q =>
      have hq := List.find?_some hfind
      have hqmem := List.mem_of_find?_eq_some hfind
      have : q.valueUri = none := hall q hqmem (by simpa using hq)
      simp [extractValidation, findParam, hfind, this]
  · intro hname
    cases hvc : p.valueCode with
    | none => simp [extractValidation, findParam, List.find?, hname, hvc]
    | some c => simp [extractValidation, findParam, List.find?, hname, hvc]
  · intro hname
    cases hvu : p.valueUri with
    | none => simp [extractValidation, findParam, List.find?, hname, hvu]
    | some s => simp [extractValidation, findParam, List.find?, hname, hvu]

/-- Witness for C10: the first `code` parameter lacks `valueCode`, a
later duplicate carries one — the output still falls back to the input
code. -/
theorem claim10_fallback_and_first_wins_witness :
    (extractValidation "http://snomed.info/sct" "30371007"
        ⟨some [⟨"code", none, none, none, none⟩,
          ⟨"code", none, some "OTHER", none, none⟩]⟩).code
      = "30371007" := by
  have h := (claim10_fallback_and_first_wins
    ⟨"http://snomed.info/sct", "30371007", "u", none⟩
    [] [⟨"code", none, some "OTHER", none, none⟩]
    ⟨"code", none, none, none, none⟩).2.2.1 rfl
  simpa using h
